import Mathlib

/-!
Verification of the F1-Predictor feature-engineering and ranking pipeline.

The Python sources (`feature_engineering.py`, `model.py`, `main.py`,
`config.py`) are shallowly embedded below: pandas `DataFrame`s become
lists of records, numeric columns become rationals, nullable columns
become `Option` values (pandas `NaN` is `none`), and the pandas / sklearn
primitives actually used by the code (`sort_values`, `rolling`,
`expanding`, `shift`, `cumsum`, `groupby ... transform`, `pd.cut`,
`median`, `fillna`, `train_test_split`) are modelled by their documented
semantics on those lists.
-/

unseal Rat.add Rat.mul Rat.sub Rat.inv

namespace F1Pred

/-- One row of the flat results table built by `data_collector.py`: one
driver's result in one race.  `Position` and `Points` are nullable
(DNF / missing data); `IsWinner` and `IsPodium` are produced by
`(Position == 1).astype(int)` / `(Position <= 3).astype(int)` and are
therefore never null. -/
structure RaceEntry where
  driver : String
  team : String
  eventName : String
  year : Int
  round : Int
  position : Option ℚ
  points : Option ℚ
  isWinner : ℚ
  isPodium : ℚ
  qualifyingPosition : Option ℚ
  pitStopCount : Option ℚ
deriving Repr, DecidableEq

/-- Value of `config.RECENT_RACES_WINDOW`. -/
def RECENT_RACES_WINDOW : Nat := 5

/-- Value of `config.MODEL_TYPE`. -/
def MODEL_TYPE : String := "random_forest"

/-- Insert into a sorted list, keeping an element that compares equal to
existing ones in front of them (the inserted element comes earlier in the
original list when used from `insertionSort`). -/
def insertSorted (le : α → α → Bool) (a : α) : List α → List α
  | [] => [a]
  | b :: l => if le a b then a :: b :: l else b :: insertSorted le a l

/-- Stable comparison sort (insertion sort): elements with equal keys keep
their original relative order. -/
def insertionSort (le : α → α → Bool) : List α → List α
  | [] => []
  | a :: l => insertSorted le a (insertionSort le l)

/-- Pandas `df.sort_values(['Year', 'Round'])`: a stable lexicographic
sort on the two key columns (pandas sorts multi-column keys with a stable
lexsort, so rows of one race keep their original relative order). -/
def sortByYearRound (df : List RaceEntry) : List RaceEntry :=
  insertionSort
    (fun a b => decide (a.year < b.year ∨ (a.year = b.year ∧ a.round ≤ b.round)))
    df

/-- Mean of a list of rationals, `none` on the empty list: the value of a
pandas mean over the non-null entries of a window (NaN when no entry
remains). -/
def meanQ (xs : List ℚ) : Option ℚ :=
  if xs.isEmpty then none else some (xs.sum / (xs.length : ℚ))

/-- Pandas `Series.rolling(window=w, min_periods=1).mean()`: at index `j`
the mean of the non-null values among indices `j+1-w .. j` (clipped at the
start of the series), NaN when that window holds no non-null value. -/
def rollingMeanMin1 (w : Nat) (xs : List (Option ℚ)) : List (Option ℚ) :=
  (List.range xs.length).map fun j =>
    meanQ ((xs.take (j + 1)).drop (j + 1 - w)).reduceOption

/-- Pandas `Series.expanding().mean()`: at index `j` the mean of the
non-null values among indices `0 .. j`. -/
def expandingMean (xs : List (Option ℚ)) : List (Option ℚ) :=
  (List.range xs.length).map fun j =>
    meanQ (xs.take (j + 1)).reduceOption

/-- Pandas `Series.expanding().min()`: at index `j` the minimum of the
non-null values among indices `0 .. j`, NaN when there is none. -/
def expandingMin (xs : List (Option ℚ)) : List (Option ℚ) :=
  (List.range xs.length).map fun j =>
    ((xs.take (j + 1)).reduceOption).min?

/-- Pandas `Series.cumsum()`: null positions stay null, every other
position holds the sum of the non-null values up to and including it. -/
def cumsum (xs : List (Option ℚ)) : List (Option ℚ) :=
  (List.range xs.length).map fun j =>
    (xs.getD j none).map fun _ => ((xs.take (j + 1)).reduceOption).sum

/-- Pandas `Series.shift(1)`: every value moves down one row and the first
row becomes null. -/
def shift1 (xs : List (Option ℚ)) : List (Option ℚ) :=
  if xs.isEmpty then [] else none :: xs.dropLast

/-- Rows of one driver in chronological order:
`df[df['Driver'] == driver]` applied to the sorted table inside
`calculate_driver_recent_form` (a pandas boolean filter preserves row
order). -/
def driverGroup (df : List RaceEntry) (d : String) : List RaceEntry :=
  (sortByYearRound df).filter fun r => r.driver == d

/-- Column `RecentAvgPosition` of one driver's group, from
`calculate_driver_recent_form`:
`Position.rolling(window, min_periods=1).mean().shift(1)`. -/
def recentAvgPositionCol (w : Nat) (df : List RaceEntry) (d : String) :
    List (Option ℚ) :=
  shift1 (rollingMeanMin1 w ((driverGroup df d).map (·.position)))

/-- Rows of one driver at one track in chronological order:
`df[(df['Driver'] == driver) & (df['EventName'] == track)]` inside
`calculate_historical_track_performance`. -/
def driverTrackGroup (df : List RaceEntry) (d e : String) : List RaceEntry :=
  (sortByYearRound df).filter fun r => r.driver == d && r.eventName == e

/-- Column `TrackAvgPosition` of one (driver, track) group:
`Position.expanding().mean().shift(1)`. -/
def trackAvgPositionCol (df : List RaceEntry) (d e : String) :
    List (Option ℚ) :=
  shift1 (expandingMean ((driverTrackGroup df d e).map (·.position)))

/-- Column `TrackBestPosition` of one (driver, track) group:
`Position.expanding().min().shift(1)`. -/
def trackBestPositionCol (df : List RaceEntry) (d e : String) :
    List (Option ℚ) :=
  shift1 (expandingMin ((driverTrackGroup df d e).map (·.position)))

/-- Column `TrackRaceCount` of one (driver, track) group:
`range(len(driver_track_data))` — row `k` holds the count `k` of strictly
prior visits. -/
def trackRaceCountCol (df : List RaceEntry) (d e : String) : List Nat :=
  List.range (driverTrackGroup df d e).length

/-- Rows of one team in one season, chronological order:
`df[(df['Team'] == team) & (df['Year'] == year)]` inside
`calculate_team_strength`. -/
def teamYearGroup (df : List RaceEntry) (t : String) (y : Int) :
    List RaceEntry :=
  (sortByYearRound df).filter fun r => r.team == t && r.year == y

/-- Pandas `groupby('Round')['Points'].transform('sum')` inside one
team-year group: every row receives the sum of the group's non-null
points at that row's round. -/
def roundPointsSum (g : List RaceEntry) (rnd : Int) : ℚ :=
  ((g.filter fun r => r.round == rnd).filterMap (·.points)).sum

/-- Column `TeamSeasonPoints` from `calculate_team_strength`:
`groupby('Round')['Points'].transform('sum').cumsum().shift(1)` over the
team-year group. -/
def teamSeasonPointsCol (df : List RaceEntry) (t : String) (y : Int) :
    List (Option ℚ) :=
  let g := teamYearGroup df t y
  shift1 (cumsum (g.map fun r => some (roundPointsSum g r.round)))

/-- Column `TeamSeasonWins` from `calculate_team_strength`:
`IsWinner.cumsum().shift(1)` over the team-year group. -/
def teamSeasonWinsCol (df : List RaceEntry) (t : String) (y : Int) :
    List (Option ℚ) :=
  shift1 (cumsum ((teamYearGroup df t y).map fun r => some r.isWinner))

/-- Column `TeamAvgPosition` from `calculate_team_strength`:
`Position.expanding().mean().shift(1)` over the team-year group. -/
def teamAvgPositionCol (df : List RaceEntry) (t : String) (y : Int) :
    List (Option ℚ) :=
  shift1 (expandingMean ((teamYearGroup df t y).map (·.position)))

/-- Rows of one season in chronological order: `df[df['Year'] == year]`
inside `calculate_championship_position`. -/
def yearGroup (df : List RaceEntry) (y : Int) : List RaceEntry :=
  (sortByYearRound df).filter fun r => r.year == y

/-- Pandas `groupby('Driver')['Points'].cumsum()` over one season: at each
row, the running sum of that row's driver's non-null points up to and
including the row (null rows stay null); values stay at their row
positions. -/
def driverCumPoints (g : List RaceEntry) : List (Option ℚ) :=
  (List.range g.length).map fun j =>
    match g[j]? with
    | none => none
    | some r =>
        r.points.map fun _ =>
          (((g.take (j + 1)).filter fun s => s.driver == r.driver).filterMap
            (·.points)).sum

/-- Column `ChampionshipPoints` from `calculate_championship_position`:
`groupby('Driver')['Points'].cumsum().shift(1)` — note that the source
applies `shift(1)` to the whole season column, across driver boundaries,
not inside each driver's group. -/
def championshipPointsCol (df : List RaceEntry) (y : Int) :
    List (Option ℚ) :=
  shift1 (driverCumPoints (yearGroup df y))

/-- Column `QualifyingPercentile` from `calculate_qualifying_features`:
`1 - (QualifyingPosition - 1) /
groupby(['Year','Round'])['QualifyingPosition'].transform('max')`,
row-wise over the table (null position gives a null percentile). -/
def qualifyingPercentileCol (df : List RaceEntry) : List (Option ℚ) :=
  df.map fun r =>
    r.qualifyingPosition.bind fun p =>
      (((df.filter fun s => s.year == r.year && s.round == r.round).filterMap
          (·.qualifyingPosition)).max?).map fun m => 1 - (p - 1) / m

/-- Labels of `pd.cut(..., labels=['one_stop','two_stop','three_stop',
'multi_stop'])` in `calculate_pit_stop_features`. -/
inductive PitStrategy where
  | one_stop
  | two_stop
  | three_stop
  | multi_stop
deriving Repr, DecidableEq

/-- Pandas `pd.cut(x, bins=[0, 1, 2, 3, 10], labels=[...])`: right-closed
bins `(0,1], (1,2], (2,3], (3,10]`; a value outside every bin maps to
null (the default `include_lowest=False` excludes the left edge 0). -/
def pdCutPitStops (x : ℚ) : Option PitStrategy :=
  if 0 < x ∧ x ≤ 1 then some .one_stop
  else if 1 < x ∧ x ≤ 2 then some .two_stop
  else if 2 < x ∧ x ≤ 3 then some .three_stop
  else if 3 < x ∧ x ≤ 10 then some .multi_stop
  else none

/-- Column `PitStopStrategy` from `calculate_pit_stop_features`:
`pd.cut(PitStopCount.fillna(2), bins=[0,1,2,3,10], labels=[...])`,
row-wise on the pit-stop count. -/
def pitStopStrategy (c : Option ℚ) : Option PitStrategy :=
  pdCutPitStops (c.getD 2)

/-- Canonical feature-name list returned by `get_feature_columns`. -/
def featureColumns : List String :=
  [ "RecentAvgPosition", "RecentAvgPoints", "RecentWinRate", "RecentPodiumRate",
    "TrackAvgPosition", "TrackBestPosition", "TrackWinRate", "TrackRaceCount",
    "TeamSeasonPoints", "TeamSeasonWins", "TeamAvgPosition",
    "QualifyingPosition", "QualifyingGap", "QualifyingPercentile", "GridPosition",
    "BestPracticePace", "PracticeConsistency",
    "AirTemp", "TrackTemp", "Humidity", "WindSpeed", "IsWetRace", "HighWinds",
    "PitStopCount", "PitStopFrequency",
    "ChampionshipPosition", "ChampionshipPoints", "PointsToLeader" ]

/-- One row of the featured table as seen by `prepare_training_data`: the
`IsWinner` label (nullable) and the feature values, positionally aligned
with the table's column-name list. -/
structure FRow where
  isWinner : Option ℚ
  vals : List (Option ℚ)
deriving Repr, DecidableEq

/-- Featured table: the feature columns actually present plus one row per
RaceEntry. -/
structure FTable where
  cols : List String
  rows : List FRow
deriving Repr, DecidableEq

/-- Value of column `c` in a row (`none` when the column is absent). -/
def FRow.val (r : FRow) (cols : List String) (c : String) : Option ℚ :=
  r.vals.getD (cols.indexOf c) none

/-- Line `available_features = [col for col in feature_cols if col in
df.columns]` of `prepare_training_data`. -/
def availableFeatures (t : FTable) : List String :=
  featureColumns.filter fun c => t.cols.contains c

/-- Line `df_clean = df.dropna(subset=['IsWinner'])` of
`prepare_training_data`. -/
def cleanRows (t : FTable) : List FRow :=
  t.rows.filter fun r => r.isWinner.isSome

/-- Line `X = df_clean[available_features]` of `prepare_training_data`. -/
def selectX (t : FTable) : List (List (Option ℚ)) :=
  (cleanRows t).map fun r => (availableFeatures t).map fun c => r.val t.cols c

/-- Values of column `j` of a feature matrix, nulls removed. -/
def colVals (X : List (List (Option ℚ))) (j : Nat) : List ℚ :=
  X.filterMap fun row => row.getD j none

/-- Pandas `Series.median()`: median of the non-null values (mean of the
two middle values for an even count), null when no value remains. -/
def medianQ (xs : List ℚ) : Option ℚ :=
  let s := insertionSort (fun a b => decide (a ≤ b)) xs
  if s.length = 0 then none
  else if s.length % 2 = 1 then some (s.getD (s.length / 2) 0)
  else some ((s.getD (s.length / 2 - 1) 0 + s.getD (s.length / 2) 0) / 2)

/-- Effect of `fillna` on one cell: a non-null value is kept, a null cell
receives its column's median (and stays null when the whole column is
null, since filling with NaN is a no-op). -/
def imputeCell (X : List (List (Option ℚ))) (cell : Option ℚ) (j : Nat) :
    Option ℚ :=
  match cell with
  | some v => some v
  | none => medianQ (colVals X j)

/-- Line `X = X.fillna(X.median())` of `prepare_training_data`. -/
def fillnaMedian (X : List (List (Option ℚ))) : List (List (Option ℚ)) :=
  X.map fun row =>
    (List.range row.length).map fun j => imputeCell X (row.getD j none) j

/-- Function `prepare_training_data`: drop label-null rows, select the
available feature columns, impute nulls with column medians; returns
`(X, y, available_features)`. -/
def prepare_training_data (t : FTable) :
    List (List (Option ℚ)) × List ℚ × List String :=
  (fillnaMedian (selectX t), (cleanRows t).filterMap (·.isWinner),
    availableFeatures t)

/-- Python exception values seen on the training and loading paths.
`insufficientTrainingData` is modelled from the spec: section 7 of the
spec names an `InsufficientTrainingData` error class, but no code in the
repository defines or raises any such error — the constructor exists here
only so that the spec's claim about it can be stated. -/
inductive PyError where
  | valueError (msg : String)
  | fileNotFoundError (msg : String)
  | insufficientTrainingData
deriving Repr, DecidableEq

/-- Opaque fitted classifier produced by `_create_model().fit(...)`: only
the kind it was created with is observable in this development (the
estimator itself lives in an external library). -/
structure Classifier where
  kind : String
deriving Repr, DecidableEq

/-- State of an `F1Predictor` instance (`model.py`). -/
structure F1Predictor where
  modelType : String
  model : Option Classifier
  featureNames : Option (List String)
  isTrained : Bool
deriving Repr, DecidableEq

/-- Constructor `F1Predictor.__init__`: `model_type or config.MODEL_TYPE`,
no model, no feature names, untrained. -/
def F1Predictor.init (mt : Option String) : F1Predictor :=
  { modelType := mt.getD MODEL_TYPE, model := none, featureNames := none,
    isTrained := false }

/-- Method `F1Predictor._create_model`: a classifier of the configured
kind, or a `ValueError` for an unknown kind. -/
def F1Predictor.createModel (p : F1Predictor) : Except PyError Classifier :=
  if p.modelType = "random_forest" then .ok ⟨"random_forest"⟩
  else if p.modelType = "xgboost" then .ok ⟨"xgboost"⟩
  else .error (.valueError ("Unknown model type: " ++ p.modelType))

/-- Sklearn `train_test_split(X, y, test_size=0.2, ...)` viability:
`n_test = ceil(0.2 * n)`, and the call raises `ValueError` when either
the train or the test side of the split would be empty — with `n = 0`
both are. -/
def trainTestSplitOk (n : Nat) : Bool :=
  let nTest := (n + 4) / 5
  decide (0 < nTest ∧ 0 < n - nTest)

/-- Method `F1Predictor.train` on a feature matrix `X` with column list
`feats`: store the column names, split (the library raises when the split
is impossible, in particular on an empty `X`, before any model is
created), then create and fit the classifier and mark the instance
trained.  Returns the post-call state and the exception, if one was
raised; the fitted estimator itself is opaque. -/
def F1Predictor.train (p : F1Predictor) (X : List (List (Option ℚ)))
    (feats : List String) : F1Predictor × Option PyError :=
  let p1 := { p with featureNames := some feats }
  if trainTestSplitOk X.length then
    match p1.createModel with
    | .ok c => ({ p1 with model := some c, isTrained := true }, none)
    | .error e => (p1, some e)
  else
    (p1, some (.valueError "train_test_split: the resulting train set will be empty"))

/-- Function `train_model`: build a predictor, train it, and `save()` it
on success; an exception from `train` propagates and `save()` is never
reached.  The second component lists the artifacts persisted to disk
during the call. -/
def train_model (X : List (List (Option ℚ))) (feats : List String)
    (mt : Option String) : Except PyError F1Predictor × List Classifier :=
  match (F1Predictor.init mt).train X feats with
  | (p1, none) => (.ok p1, p1.model.toList)
  | (_, some e) => (.error e, [])

/-- Outcome of one run of `cmd_train` in `main.py`. -/
inductive TrainRunOutcome where
  | abortedNoSamples
  | trained (p : F1Predictor)
  | raised (e : PyError)
deriving Repr, DecidableEq

/-- Function `cmd_train` of `main.py`, from `prepare_training_data` on:
`if len(X) == 0: print("Error: No valid training samples"); return`
guards the empty matrix before any training; otherwise `train_model`
runs.  The second component lists the artifacts persisted during the
run. -/
def cmd_train_core (t : FTable) (mt : Option String) :
    TrainRunOutcome × List Classifier :=
  let r := prepare_training_data t
  if r.1.length = 0 then (.abortedNoSamples, [])
  else
    match train_model r.1 r.2.2 mt with
    | (.ok p, arts) => (.trained p, arts)
    | (.error e, arts) => (.raised e, arts)

/-- Persisted model artifact (`model_data` dict written by
`F1Predictor.save`): the estimator, its kind tag and the feature-name
list. -/
structure Artifact where
  model : Classifier
  modelType : String
  featureNames : List String
deriving Repr, DecidableEq

/-- Method `F1Predictor.load` on an artifact that was successfully read
from disk: install the stored estimator, kind tag and feature names, and
mark the instance trained. -/
def F1Predictor.load (p : F1Predictor) (a : Artifact) : F1Predictor :=
  { p with model := some a.model, modelType := a.modelType,
           featureNames := some a.featureNames, isTrained := true }

/-- Helper building a fully-populated race row. -/
def mkRow (d t e : String) (y rnd : Int) (pos pts win : ℚ) : RaceEntry :=
  { driver := d, team := t, eventName := e, year := y, round := rnd,
    position := some pos, points := some pts, isWinner := win,
    isPodium := if pos ≤ 3 then 1 else 0,
    qualifyingPosition := none, pitStopCount := none }

/-- Scenario table of the spec: driver "A" with races
`(2023,1,pos=1), (2023,2,pos=3), (2023,3,pos=2)`, all at one track. -/
def dfScenario : List RaceEntry :=
  [ mkRow "A" "T" "GP1" 2023 1 1 25 1,
    mkRow "A" "T" "GP1" 2023 2 3 15 0,
    mkRow "A" "T" "GP1" 2023 3 2 18 0 ]

/-- Team "T" with drivers "A" and "B" over rounds 1 and 2 of 2023. -/
def dfLeakA : List RaceEntry :=
  [ mkRow "A" "T" "GP1" 2023 1 1 10 1,
    mkRow "B" "T" "GP1" 2023 1 2 8 0,
    mkRow "A" "T" "GP2" 2023 2 1 25 1,
    mkRow "B" "T" "GP2" 2023 2 2 18 0 ]

/-- Same table as `dfLeakA` except for one outcome column of one race:
driver "A" scores 0 points instead of 10 in round 1. -/
def dfLeakB : List RaceEntry :=
  [ mkRow "A" "T" "GP1" 2023 1 1 0 1,
    mkRow "B" "T" "GP1" 2023 1 2 8 0,
    mkRow "A" "T" "GP2" 2023 2 1 25 1,
    mkRow "B" "T" "GP2" 2023 2 2 18 0 ]

/-- Helper building a row that only carries a qualifying position. -/
def mkQRow (d : String) (q : ℚ) : RaceEntry :=
  { driver := d, team := "T1", eventName := "GP", year := 2024, round := 1,
    position := none, points := none, isWinner := 0, isPodium := 0,
    qualifyingPosition := some q, pitStopCount := none }

/-- Four-driver race with qualifying positions `[1, 2, 3, 4]` — the
scenario of the spec's `QualifyingPercentile` claim. -/
def dfQ4 : List RaceEntry :=
  [ mkQRow "D1" 1, mkQRow "D2" 2, mkQRow "D3" 3, mkQRow "D4" 4 ]

/-- Featured table whose every row has a null `IsWinner` label. -/
def tNull : FTable :=
  { cols := ["QualifyingPosition", "GridPosition"],
    rows := [ { isWinner := none, vals := [some 3, some 5] },
              { isWinner := none, vals := [some 4, none] } ] }

/-- Featured table with one null feature cell among surviving rows and a
label-null row that is dropped. -/
def tImpute : FTable :=
  { cols := ["QualifyingPosition", "GridPosition"],
    rows := [ { isWinner := some 1, vals := [some 3, none] },
              { isWinner := some 0, vals := [some 5, some 7] },
              { isWinner := none, vals := [some 9, some 9] } ] }

/-- Technical: an index holding a value is within bounds. -/
theorem lt_length_of_getElem?_eq_some {α : Type} {l : List α} {n : Nat}
    {a : α} (h : l[n]? = some a) : n < l.length := by
  rcases Nat.lt_or_ge n l.length with h1 | h1
  · exact h1
  · rw [List.getElem?_eq_none h1] at h; cases h

/-- Removing the `some` wrappers from a fully non-null list. -/
theorem reduceOption_map_some (l : List ℚ) : (l.map some).reduceOption = l := by
  induction l with
  | nil => rfl
  | cons x t ih => simp [List.reduceOption_cons_of_some, ih]

/-- Shifting preserves length. -/
theorem length_shift1 (xs : List (Option ℚ)) :
    (shift1 xs).length = xs.length := by
  cases xs with
  | nil => rfl
  | cons x t => simp [shift1]

/-- Row 0 of a shifted column is always null. -/
theorem shift1_getD_zero (xs : List (Option ℚ)) :
    (shift1 xs).getD 0 none = none := by
  cases xs <;> rfl

/-- Row `k ≥ 1` of a shifted column holds row `k - 1` of the original. -/
theorem getElem?_shift1 {xs : List (Option ℚ)} {k : Nat} (h1 : 1 ≤ k)
    (h2 : k < xs.length) : (shift1 xs)[k]? = xs[k - 1]? := by
  cases xs with
  | nil => simp at h2
  | cons x t =>
    obtain ⟨j, rfl⟩ : ∃ j, k = j + 1 := ⟨k - 1, by omega⟩
    show (none :: (x :: t).dropLast)[j + 1]? = _
    rw [List.getElem?_cons_succ, List.dropLast_eq_take, List.getElem?_take]
    rw [if_pos (by simp only [List.length_cons] at h2 ⊢; omega)]
    simp

/-- Value of the rolling mean at a valid index. -/
theorem rollingMeanMin1_getElem? (w : Nat) (xs : List (Option ℚ)) (m : Nat)
    (h : m < xs.length) :
    (rollingMeanMin1 w xs)[m]?
      = some (meanQ ((xs.take (m + 1)).drop (m + 1 - w)).reduceOption) := by
  simp [rollingMeanMin1, List.getElem?_range h]

/-- Value of the expanding minimum at a valid index. -/
theorem expandingMin_getElem? (xs : List (Option ℚ)) (m : Nat)
    (h : m < xs.length) :
    (expandingMin xs)[m]? = some ((xs.take (m + 1)).reduceOption.min?) := by
  simp [expandingMin, List.getElem?_range h]

/-- Length of the rolling mean column. -/
theorem length_rollingMeanMin1 (w : Nat) (xs : List (Option ℚ)) :
    (rollingMeanMin1 w xs).length = xs.length := by
  simp [rollingMeanMin1]

/-- Length of the expanding minimum column. -/
theorem length_expandingMin (xs : List (Option ℚ)) :
    (expandingMin xs).length = xs.length := by
  simp [expandingMin]

/-- A left fold by `min` lands in the list it folds over. -/
theorem foldl_min_mem (l : List ℚ) (a : ℚ) : l.foldl min a ∈ a :: l := by
  induction l generalizing a with
  | nil => simp
  | cons x t ih =>
    rw [List.foldl_cons]
    rcases List.mem_cons.mp (ih (min a x)) with h1 | h1
    · rw [h1]
      rcases min_choice a x with h2 | h2 <;> rw [h2] <;> simp
    · simp only [List.mem_cons]
      exact Or.inr (Or.inr h1)

/-- A left fold by `min` is a lower bound of seed and list. -/
theorem foldl_min_le (l : List ℚ) (a : ℚ) : ∀ b ∈ a :: l, l.foldl min a ≤ b := by
  induction l generalizing a with
  | nil =>
    intro b hb
    rw [List.foldl_nil]
    rcases List.mem_cons.mp hb with h | h
    · exact le_of_eq h.symm
    · simp at h
  | cons x t ih =>
    intro b hb
    rw [List.foldl_cons]
    have hmin : t.foldl min (min a x) ≤ min a x :=
      ih (min a x) (min a x) (List.mem_cons_self _ _)
    rcases List.mem_cons.mp hb with h | h
    · exact le_trans (le_trans hmin (min_le_left a x)) (le_of_eq h.symm)
    · rcases List.mem_cons.mp h with h1 | h1
      · exact le_trans (le_trans hmin (min_le_right a x)) (le_of_eq h1.symm)
      · exact ih (min a x) b (List.mem_cons_of_mem _ h1)

/-- Characterisation of `List.min?`: a computed minimum is a member and a
lower bound. -/
theorem min?_spec {l : List ℚ} {a : ℚ} (h : l.min? = some a) :
    a ∈ l ∧ ∀ b ∈ l, a ≤ b := by
  cases l with
  | nil => cases h
  | cons x t =>
    have hx : t.foldl min x = a := by
      have he : (x :: t).min? = some (t.foldl min x) := rfl
      rw [he] at h
      exact Option.some.inj h
    exact hx ▸ ⟨foldl_min_mem t x, foldl_min_le t x⟩

/-- Reading a mapped column at an index known to hold `c`. -/
theorem getD_map_of_getElem? (l : List String) (j : Nat) (c : String)
    (hc : l[j]? = some c) (f : String → Option ℚ) :
    (l.map f).getD j none = f c := by
  rw [List.getD_eq_getElem?_getD, List.getElem?_map, hc]
  rfl

/-- C1: the no-leakage property fails on the code.  `dfLeakA` and
`dfLeakB` differ only in an outcome column of race (2023, round 1) —
driver "A" scores 10 points there in one table and 0 in the other — yet
driver "B"'s `TeamSeasonPoints` and `ChampionshipPoints` computed for
that same race (row index 1 of the team-year group and of the season
group) change from 18 to 8 and from 10 to 0: the single-row `shift(1)` in
`calculate_team_strength` and `calculate_championship_position` leaks the
current race's own outcome into features of other rows of that race. -/
theorem C1_outcome_leaks_into_same_race_features :
    ((teamYearGroup dfLeakA "T" 2023)[1]?.map fun r => (r.driver, r.round))
        = some ("B", 1) ∧
    ((yearGroup dfLeakB 2023)[1]?.map fun r => (r.driver, r.round))
        = some ("B", 1) ∧
    (teamSeasonPointsCol dfLeakA "T" 2023).getD 1 none = some 18 ∧
    (teamSeasonPointsCol dfLeakB "T" 2023).getD 1 none = some 8 ∧
    (championshipPointsCol dfLeakA 2023).getD 1 none = some 10 ∧
    (championshipPointsCol dfLeakB 2023).getD 1 none = some 0 := by
  decide

/-- C4 counterexample: in the 4-driver race with qualifying positions
`[1,2,3,4]`, the code's `QualifyingPercentile` for position 2 is 3/4, not
0.667 (nor 2/3), and for the last position it is 1/4, not 0 — the code
divides by the maximum position, so the spec's scenario values are
wrong. -/
theorem C4_counterexample :
    (qualifyingPercentileCol dfQ4).getD 1 none ≠ some (667 / 1000) ∧
    (qualifyingPercentileCol dfQ4).getD 1 none ≠ some (2 / 3) ∧
    (qualifyingPercentileCol dfQ4).getD 3 none ≠ some 0 := by
  decide

/-- C4 amended: in a 4-driver race with qualifying positions `[1,2,3,4]`,
`QualifyingPercentile` equals `[1, 3/4, 1/2, 1/4]` — the formula
`1 - (position - 1) / (max position in the race)` maps pole to 1.0 and
last place to `1/max`, the lowest value, not to 0. -/
theorem C4_amended :
    qualifyingPercentileCol dfQ4
      = [some 1, some (3 / 4), some (1 / 2), some (1 / 4)] := by
  decide

/-- C5 counterexample: a pit-stop count of 0 is outside every `pd.cut`
bin (the first bin is the half-open interval `(0, 1]`), so it maps to
null, not to `one_stop`; likewise a count of 11 exceeds the last bin edge
10 and maps to null, not to `multi_stop`. -/
theorem C5_counterexample :
    pitStopStrategy (some 0) = none ∧
    pitStopStrategy (some 0) ≠ some PitStrategy.one_stop ∧
    pitStopStrategy (some 11) ≠ some PitStrategy.multi_stop := by
  decide

/-- C5 amended: the bucketing is total only on counts inside the bins
`(0,1], (1,2], (2,3], (3,10]`: counts in `(0,1]` map to `one_stop`, 2 to
`two_stop`, 3 to `three_stop`, counts in `(3,10]` to `multi_stop`, and a
missing count defaults to 2 and hence `two_stop`; a count of 0 or a count
above 10 falls outside every bin and maps to null. -/
theorem C5_amended :
    (∀ c : ℚ, 0 < c → c ≤ 1 →
      pitStopStrategy (some c) = some PitStrategy.one_stop) ∧
    pitStopStrategy (some 2) = some PitStrategy.two_stop ∧
    pitStopStrategy (some 3) = some PitStrategy.three_stop ∧
    (∀ c : ℚ, 3 < c → c ≤ 10 →
      pitStopStrategy (some c) = some PitStrategy.multi_stop) ∧
    pitStopStrategy none = some PitStrategy.two_stop ∧
    pitStopStrategy (some 0) = none ∧
    (∀ c : ℚ, 10 < c → pitStopStrategy (some c) = none) := by
  refine ⟨fun c h1 h2 => ?_, by decide, by decide, fun c h1 h2 => ?_,
    by decide, by decide, fun c h1 => ?_⟩
  · show pdCutPitStops c = _
    unfold pdCutPitStops
    rw [if_pos ⟨h1, h2⟩]
  · have hn1 : ¬(0 < c ∧ c ≤ 1) := by rintro ⟨-, h⟩; linarith
    have hn2 : ¬(1 < c ∧ c ≤ 2) := by rintro ⟨-, h⟩; linarith
    have hn3 : ¬(2 < c ∧ c ≤ 3) := by rintro ⟨-, h⟩; linarith
    show pdCutPitStops c = _
    unfold pdCutPitStops
    rw [if_neg hn1, if_neg hn2, if_neg hn3, if_pos ⟨h1, h2⟩]
  · have hn1 : ¬(0 < c ∧ c ≤ 1) := by rintro ⟨-, h⟩; linarith
    have hn2 : ¬(1 < c ∧ c ≤ 2) := by rintro ⟨-, h⟩; linarith
    have hn3 : ¬(2 < c ∧ c ≤ 3) := by rintro ⟨-, h⟩; linarith
    have hn4 : ¬(3 < c ∧ c ≤ 10) := by rintro ⟨-, h⟩; linarith
    show pdCutPitStops c = _
    unfold pdCutPitStops
    rw [if_neg hn1, if_neg hn2, if_neg hn3, if_neg hn4]

/-- C5 amended, instantiated: one stop maps to `one_stop`, four stops to
`multi_stop`, twelve stops to null. -/
theorem C5_amended_witness :
    pitStopStrategy (some 1) = some PitStrategy.one_stop ∧
    pitStopStrategy (some 4) = some PitStrategy.multi_stop ∧
    pitStopStrategy (some 12) = none :=
  ⟨C5_amended.1 1 (by norm_num) (by norm_num),
   C5_amended.2.2.2.1 4 (by norm_num) (by norm_num),
   C5_amended.2.2.2.2.2.2 12 (by norm_num)⟩

/-- C2 counterexample: on a table whose every label is null,
`prepare_training_data` returns an empty matrix and `F1Predictor.train`
then fails inside the library train/test split with a plain `ValueError`
— not with an `InsufficientTrainingData` error; no such error class
exists anywhere in the code. -/
theorem C2_counterexample :
    (prepare_training_data tNull).1 = [] ∧
    ((F1Predictor.init none).train (prepare_training_data tNull).1
        (prepare_training_data tNull).2.2).2
      = some (PyError.valueError
          "train_test_split: the resulting train set will be empty") ∧
    ((F1Predictor.init none).train (prepare_training_data tNull).1
        (prepare_training_data tNull).2.2).2
      ≠ some PyError.insufficientTrainingData := by
  decide

/-- C2 amended: when zero rows survive label-null filtering, the feature
matrix is empty, `F1Predictor.train` on it never fits (the instance stays
untrained with no model) and raises the library `ValueError` from the
train/test split rather than an `InsufficientTrainingData` error, and the
CLI entry point `cmd_train` aborts with its own empty-matrix guard before
training, persisting no artifact. -/
theorem C2_amended (t : FTable) (mt : Option String)
    (h : ∀ r ∈ t.rows, r.isWinner = none) :
    (prepare_training_data t).1 = [] ∧
    ((F1Predictor.init mt).train (prepare_training_data t).1
        (prepare_training_data t).2.2).1.isTrained = false ∧
    ((F1Predictor.init mt).train (prepare_training_data t).1
        (prepare_training_data t).2.2).1.model = none ∧
    ((F1Predictor.init mt).train (prepare_training_data t).1
        (prepare_training_data t).2.2).2
      = some (PyError.valueError
          "train_test_split: the resulting train set will be empty") ∧
    cmd_train_core t mt = (TrainRunOutcome.abortedNoSamples, []) := by
  have hclean : cleanRows t = [] := by
    rw [cleanRows, List.filter_eq_nil_iff]
    intro r hr
    simp [h r hr]
  have hX : (prepare_training_data t).1 = [] := by
    simp [prepare_training_data, fillnaMedian, selectX, hclean]
  have htr : (F1Predictor.init mt).train (prepare_training_data t).1
      (prepare_training_data t).2.2
      = ({ F1Predictor.init mt with
            featureNames := some (prepare_training_data t).2.2 },
         some (PyError.valueError
           "train_test_split: the resulting train set will be empty")) := by
    rw [hX]
    rfl
  refine ⟨hX, ?_, ?_, ?_, ?_⟩
  · rw [htr]
    rfl
  · rw [htr]
    rfl
  · rw [htr]
  · simp [cmd_train_core, hX]

/-- C2 amended, instantiated at the concrete all-null-label table. -/
theorem C2_amended_witness :
    (prepare_training_data tNull).1 = [] ∧
    ((F1Predictor.init none).train (prepare_training_data tNull).1
        (prepare_training_data tNull).2.2).1.isTrained = false ∧
    ((F1Predictor.init none).train (prepare_training_data tNull).1
        (prepare_training_data tNull).2.2).1.model = none ∧
    ((F1Predictor.init none).train (prepare_training_data tNull).1
        (prepare_training_data tNull).2.2).2
      = some (PyError.valueError
          "train_test_split: the resulting train set will be empty") ∧
    cmd_train_core tNull none = (TrainRunOutcome.abortedNoSamples, []) :=
  C2_amended tNull none (by decide)

/-- C6: for every driver, window `w` and race index `k ≥ 1` in the
driver's chronologically sorted sequence, `RecentAvgPosition` at `k` is
the mean of the finish positions in the trailing window of the previous
races — indices `k - w` to `k - 1`, the current race excluded, which is
all available prior races when fewer than `w` exist; and in the spec's
scenario (races `(2023,1,pos=1), (2023,2,pos=3), (2023,3,pos=2)`, window
2) the value for round 3 is 2. -/
theorem C6_recent_form_window (df : List RaceEntry) (d : String) (w k : Nat)
    (hk1 : 1 ≤ k) (hk2 : k < (driverGroup df d).length) (vals : List ℚ)
    (hne : vals ≠ [])
    (hv : (((driverGroup df d).map (·.position)).take k).drop (k - w)
        = vals.map some) :
    (recentAvgPositionCol w df d).getD k none
      = some (vals.sum / (vals.length : ℚ)) ∧
    (recentAvgPositionCol 2 dfScenario "A").getD 2 none = some 2 := by
  constructor
  · have hlen : k < ((driverGroup df d).map (·.position)).length := by
      simpa using hk2
    simp only [recentAvgPositionCol]
    rw [List.getD_eq_getElem?_getD,
      getElem?_shift1 hk1 (by rw [length_rollingMeanMin1]; exact hlen),
      rollingMeanMin1_getElem? w _ (k - 1) (by omega)]
    have hk3 : k - 1 + 1 = k := by omega
    rw [hk3, hv, reduceOption_map_some]
    have hvne : vals.isEmpty = false := by
      cases vals
      · exact absurd rfl hne
      · rfl
    simp [meanQ, hvne]
  · decide

/-- C6, instantiated at the spec's scenario: window 2, third race, window
values `[1, 3]`, mean 2. -/
theorem C6_witness :
    (recentAvgPositionCol 2 dfScenario "A").getD 2 none = some 2 := by
  have h := (C6_recent_form_window dfScenario "A" 2 2 (by norm_num)
    (by decide) [1, 3] (by decide) (by decide)).1
  norm_num [List.sum_cons, List.sum_nil] at h
  exact h

/-- C7: when a driver has at least one race, row 0 of the driver's
chronological sequence — the first-ever race — has a null
`RecentAvgPosition`; and when a driver has visited a track, row 0 of the
(driver, track) sequence — the first visit — has `TrackRaceCount` 0 and a
null `TrackAvgPosition`. -/
theorem C7_first_occurrence_nulls (df : List RaceEntry) (d e : String)
    (hd : driverGroup df d ≠ []) (he : driverTrackGroup df d e ≠ []) :
    (recentAvgPositionCol RECENT_RACES_WINDOW df d).getD 0 none = none ∧
    (trackRaceCountCol df d e).getD 0 0 = 0 ∧
    (trackAvgPositionCol df d e).getD 0 none = none := by
  refine ⟨?_, ?_, ?_⟩
  · simp only [recentAvgPositionCol]
    exact shift1_getD_zero _
  · have hpos : 0 < (driverTrackGroup df d e).length := List.length_pos.mpr he
    simp only [trackRaceCountCol]
    rw [List.getD_eq_getElem?_getD, List.getElem?_range hpos]
    rfl
  · simp only [trackAvgPositionCol]
    exact shift1_getD_zero _

/-- C7, instantiated at the scenario table. -/
theorem C7_witness :
    (recentAvgPositionCol RECENT_RACES_WINDOW dfScenario "A").getD 0 none
      = none ∧
    (trackRaceCountCol dfScenario "A" "GP1").getD 0 0 = 0 ∧
    (trackAvgPositionCol dfScenario "A" "GP1").getD 0 none = none :=
  C7_first_occurrence_nulls dfScenario "A" "GP1" (by decide) (by decide)

/-- Technical: a non-null `TrackBestPosition` value at row `k` is the
minimum of the non-null positions among the strictly earlier rows of the
(driver, track) group. -/
theorem trackBest_getD_eq_min? (df : List RaceEntry) (d e : String)
    (k : Nat) (v : ℚ)
    (h : (trackBestPositionCol df d e).getD k none = some v) :
    1 ≤ k ∧ k ≤ ((driverTrackGroup df d e).map (·.position)).length ∧
    ((((driverTrackGroup df d e).map (·.position)).take k).reduceOption).min?
      = some v := by
  simp only [trackBestPositionCol] at h
  have hk1 : 1 ≤ k := by
    by_contra h0
    have hz : k = 0 := by omega
    subst hz
    rw [shift1_getD_zero] at h
    cases h
  have hklt : k < (expandingMin
      ((driverTrackGroup df d e).map (·.position))).length := by
    rcases Nat.lt_or_ge k (expandingMin
        ((driverTrackGroup df d e).map (·.position))).length with hcase | hcase
    · exact hcase
    · rw [List.getD_eq_getElem?_getD,
        List.getElem?_eq_none (by rw [length_shift1]; exact hcase)] at h
      cases h
  have hxlen := length_expandingMin ((driverTrackGroup df d e).map (·.position))
  rw [List.getD_eq_getElem?_getD, getElem?_shift1 hk1 hklt,
    expandingMin_getElem? _ (k - 1) (by omega)] at h
  simp only [Option.getD_some] at h
  have hk3 : k - 1 + 1 = k := by omega
  rw [hk3] at h
  exact ⟨hk1, by omega, h⟩

/-- C8: for every driver and track, the sequence of non-null
`TrackBestPosition` values is non-increasing in chronological order — it
is the running minimum over strictly prior visits. -/
theorem C8_trackbest_nonincreasing (df : List RaceEntry) (d e : String)
    (i j : Nat) (hij : i ≤ j) (a b : ℚ)
    (ha : (trackBestPositionCol df d e).getD i none = some a)
    (hb : (trackBestPositionCol df d e).getD j none = some b) :
    b ≤ a := by
  obtain ⟨hi1, hi2, hma⟩ := trackBest_getD_eq_min? df d e i a ha
  obtain ⟨hj1, hj2, hmb⟩ := trackBest_getD_eq_min? df d e j b hb
  have hsub : List.Sublist
      ((((driverTrackGroup df d e).map (·.position)).take i).reduceOption)
      ((((driverTrackGroup df d e).map (·.position)).take j).reduceOption) := by
    have h1 : ((driverTrackGroup df d e).map (·.position)).take i
        = (((driverTrackGroup df d e).map (·.position)).take j).take i := by
      rw [List.take_take]
      congr 1
      omega
    rw [h1]
    exact List.Sublist.filterMap id (List.take_sublist i _)
  exact (min?_spec hmb).2 a (hsub.subset (min?_spec hma).1)

/-- C8, instantiated: at the scenario table the values at rows 1 and 2
are 1 and 1, and the later one is no larger. -/
theorem C8_witness :
    (trackBestPositionCol dfScenario "A" "GP1").getD 1 none = some 1 ∧
    (trackBestPositionCol dfScenario "A" "GP1").getD 2 none = some 1 ∧
    (1 : ℚ) ≤ 1 :=
  ⟨by decide, by decide,
    C8_trackbest_nonincreasing dfScenario "A" "GP1" 1 2 (by norm_num) 1 1
      (by decide) (by decide)⟩

/-- C9: in the feature matrix returned by `prepare_training_data`, a cell
whose original value in the surviving row is non-null keeps exactly that
value, and a cell whose original value is null is replaced by the median
of its feature column computed globally over all surviving rows (null
only when that whole column is null, when there is no median and the fill
is a no-op); hence every cell equals the original value or the global
column median. -/
theorem C9_imputation (t : FTable) (i j : Nat) (r : FRow) (c : String)
    (hr : (cleanRows t)[i]? = some r)
    (hc : (availableFeatures t)[j]? = some c) :
    (r.val t.cols c ≠ none →
      ((prepare_training_data t).1.getD i []).getD j none = r.val t.cols c) ∧
    (r.val t.cols c = none →
      ((prepare_training_data t).1.getD i []).getD j none
        = medianQ ((cleanRows t).filterMap fun s => s.val t.cols c)) := by
  have hjlen : j < (availableFeatures t).length :=
    lt_length_of_getElem?_eq_some hc
  have hrow : (selectX t)[i]?
      = some ((availableFeatures t).map fun c2 => r.val t.cols c2) := by
    simp only [selectX]
    rw [List.getElem?_map, hr]
    rfl
  have hX : (prepare_training_data t).1 = fillnaMedian (selectX t) := rfl
  rw [hX]
  have hfrow : (fillnaMedian (selectX t))[i]?
      = some ((List.range
          ((availableFeatures t).map fun c2 => r.val t.cols c2).length).map
        fun j2 => imputeCell (selectX t)
          (((availableFeatures t).map fun c2 => r.val t.cols c2).getD j2 none)
          j2) := by
    simp only [fillnaMedian]
    rw [List.getElem?_map, hrow]
    rfl
  have hlen2 : j < ((availableFeatures t).map
      fun c2 => r.val t.cols c2).length := by
    simpa using hjlen
  rw [List.getD_eq_getElem?_getD, List.getD_eq_getElem?_getD, hfrow,
    Option.getD_some, List.getElem?_map, List.getElem?_range hlen2,
    Option.map_some', Option.getD_some, getD_map_of_getElem? _ j c hc]
  have hcol : colVals (selectX t) j
      = (cleanRows t).filterMap fun s => s.val t.cols c := by
    simp only [colVals, selectX]
    rw [List.filterMap_map]
    apply List.filterMap_congr
    intro s _
    exact getD_map_of_getElem? _ j c hc fun c2 => s.val t.cols c2
  show (r.val t.cols c ≠ none →
      imputeCell (selectX t) (r.val t.cols c) j = r.val t.cols c) ∧
    (r.val t.cols c = none →
      imputeCell (selectX t) (r.val t.cols c) j
        = medianQ ((cleanRows t).filterMap fun s => s.val t.cols c))
  constructor
  · intro hnn
    cases hv : r.val t.cols c with
    | some v => simp [imputeCell]
    | none => exact absurd hv hnn
  · intro hn
    rw [hn]
    simp [imputeCell, hcol]

/-- C9, instantiated: in the concrete table, the null `GridPosition` cell
of the first surviving row receives its column's global median, and the
non-null `QualifyingPosition` cell of the second surviving row keeps its
original value. -/
theorem C9_witness :
    ((prepare_training_data tImpute).1.getD 0 []).getD 1 none
      = medianQ ((cleanRows tImpute).filterMap
          fun s => s.val tImpute.cols "GridPosition") ∧
    ((prepare_training_data tImpute).1.getD 1 []).getD 0 none
      = FRow.val { isWinner := some 0, vals := [some 5, some 7] }
          tImpute.cols "QualifyingPosition" :=
  ⟨(C9_imputation tImpute 0 1 { isWinner := some 1, vals := [some 3, none] }
      "GridPosition" (by decide) (by decide)).2 (by decide),
   (C9_imputation tImpute 1 0 { isWinner := some 0, vals := [some 5, some 7] }
      "QualifyingPosition" (by decide) (by decide)).1 (by decide)⟩

/-- C10: after a successful load, an `F1Predictor` is trained and its
model kind, estimator and feature-name list are the artifact's, whatever
kind the instance was constructed with; in particular a predictor built
for `random_forest` that loads an `xgboost` artifact becomes an
`xgboost` predictor. -/
theorem C10_load_installs_artifact (mt0 : Option String) (a : Artifact) :
    ((F1Predictor.init mt0).load a).isTrained = true ∧
    ((F1Predictor.init mt0).load a).modelType = a.modelType ∧
    ((F1Predictor.init mt0).load a).featureNames = some a.featureNames ∧
    ((F1Predictor.init mt0).load a).model = some a.model ∧
    ((F1Predictor.init (some "random_forest")).load
        ⟨⟨"xgboost"⟩, "xgboost", ["GridPosition"]⟩).modelType = "xgboost" :=
  ⟨rfl, rfl, rfl, rfl, rfl⟩

/-- C10, instantiated at a concrete cross-kind artifact. -/
theorem C10_witness :
    ((F1Predictor.init (some "random_forest")).load
        ⟨⟨"xgboost"⟩, "xgboost", ["GridPosition"]⟩).isTrained = true ∧
    ((F1Predictor.init (some "random_forest")).load
        ⟨⟨"xgboost"⟩, "xgboost", ["GridPosition"]⟩).modelType = "xgboost" :=
  ⟨(C10_load_installs_artifact (some "random_forest")
      ⟨⟨"xgboost"⟩, "xgboost", ["GridPosition"]⟩).1,
   (C10_load_installs_artifact (some "random_forest")
      ⟨⟨"xgboost"⟩, "xgboost", ["GridPosition"]⟩).2.1⟩

end F1Pred
